/-
Verification of the k8s-elector node (package `pkg`, files `config.go` and
`elector.go`) against its natural-language specification.

The embedding models the elector node's pure control flow. External effects
(hostname lookup, the `ELECTOR_POD_NAME` environment variable, kubeconfig /
in-cluster client construction, lock creation, and the scheduler's choice in
the `select` of `runUntilError`) are passed in explicitly as environments and
observation lists, so every function is executable and the source's branching
is mirrored exactly.
-/
import Mathlib

set_option autoImplicit false

namespace KElector

/-- Go `time.Duration` is an `int64` count of nanoseconds; Go's `/` on it is
integer division truncating toward zero (`Int.tdiv`). -/
abbrev Duration := Int

/-- Structure `ElectorConfig` from `config.go`, plus the `PodName` field that
`elector.go`'s `checkConfig`/`updatePodLabel` populate and read. -/
structure ElectorConfig where
  Address : String
  ID : String
  KubeConfig : String
  LockType : String
  Name : String
  Namespace : String
  PodName : String
  TTL : Duration
  deriving Repr, DecidableEq

/-- Errors the elector functions can return (`error` values in Go). -/
inductive GoError where
  /-- Error `errors.New("no config specified for elector")` in `checkConfig`. -/
  | noConfig
  /-- Error `errors.New("missing required value: election name was not specified ...")`. -/
  | missingName
  /-- Call `os.Hostname()` failed; carries the OS error text. -/
  | hostnameErr (msg : String)
  /-- Value `node.ctx.Err()` after the context was cancelled (`context.Canceled`). -/
  | contextCanceled
  /-- Error `errors.New("no config specified for the elector")` in `buildClientConfig`. -/
  | noConfigClient
  /-- an error bubbled up from a client-go library call; carries its text. -/
  | libErr (msg : String)
  deriving Repr, DecidableEq

/-- The ambient OS facts `checkConfig` consults: the result of
`os.Hostname()` and the value of `os.Getenv(EnvPodName)` (empty when the
variable is unset). -/
structure OSEnv where
  hostname : Except String String
  podNameEnv : String
  deriving Repr

/-- Function `checkConfig` from `elector.go`. Go mutates `node.config` in place; the
embedding returns the updated config on success. Branch order follows the
source: nil-config check, empty-name check, `os.Hostname()`, pod-name
defaulting, ID defaulting. -/
def checkConfig (env : OSEnv) (config : Option ElectorConfig) :
    Except GoError ElectorConfig :=
  match config with
  | none => .error .noConfig
  | some cfg =>
    if cfg.Name = "" then
      .error .missingName
    else
      match env.hostname with
      | .error e => .error (.hostnameErr e)
      | .ok hostname =>
        let cfg := if env.podNameEnv ≠ "" then
            { cfg with PodName := env.podNameEnv }
          else
            { cfg with PodName := hostname }
        let cfg := if cfg.ID = "" then { cfg with ID := hostname } else cfg
        .ok cfg

/-- The slice of `leaderelection.LeaderElectionConfig` that `run` fills in
from the elector config (the literal at the `RunOrDie` call site). -/
structure LeaderElectionConfig where
  Name : String
  ReleaseOnCancel : Bool
  LeaseDuration : Duration
  RenewDeadline : Duration
  RetryPeriod : Duration
  deriving Repr, DecidableEq

/-- The election config literal passed to `leaderelection.RunOrDie` in
`run`: `LeaseDuration: TTL`, `RenewDeadline: TTL / 3`, `RetryPeriod: TTL / 6`
(Go integer division on `time.Duration`). -/
def electionConfigOf (cfg : ElectorConfig) : LeaderElectionConfig :=
  { Name := cfg.Namespace ++ "/" ++ cfg.Name ++ "-" ++ cfg.ID
    ReleaseOnCancel := true
    LeaseDuration := cfg.TTL
    RenewDeadline := Int.tdiv cfg.TTL 3
    RetryPeriod := Int.tdiv cfg.TTL 6 }

/-- Externally visible steps of one election session (`run`), in the order
the source performs them. `newClient` is `kubernetes.NewForConfig`,
`newLock` is `resourcelock.New`, `runElection` is `leaderelection.RunOrDie`
with the recorded config. -/
inductive Event where
  | buildClientCfg
  | newClient
  | newLock
  | runElection (lec : LeaderElectionConfig)
  deriving Repr, DecidableEq

/-- Outcomes of the library calls one session makes, supplied by the
environment: `clientcmd.BuildConfigFromFlags` (used when `KubeConfig ≠ ""`),
`rest.InClusterConfig` (used otherwise), `kubernetes.NewForConfig`, and
`resourcelock.New`. Each carries the error text on failure. -/
structure SessionEnv where
  kubeconfigBuild : Except String Unit
  inCluster : Except String Unit
  newForConfig : Except String Unit
  newLock : Except String Unit
  deriving Repr

/-- Function `buildClientConfig` from `elector.go`: nil-config check, then the
kubeconfig-file path or the in-cluster default. -/
def buildClientConfig (env : SessionEnv) (config : Option ElectorConfig) :
    Except GoError Unit :=
  match config with
  | none => .error .noConfigClient
  | some cfg =>
    if cfg.KubeConfig ≠ "" then
      match env.kubeconfigBuild with
      | .error e => .error (.libErr e)
      | .ok _ => .ok ()
    else
      match env.inCluster with
      | .error e => .error (.libErr e)
      | .ok _ => .ok ()

/-- One election session: the body of `run` in `elector.go`. Returns the
session's `error` result together with the trace of store/client steps it
performed. `RunOrDie` itself blocks until the shared context is cancelled and
then returns, after which `run` returns `nil`; that return is modelled as the
`none` result carrying the `runElection` event. -/
def runSession (env : SessionEnv) (cfg : ElectorConfig) :
    Option GoError × List Event :=
  match buildClientConfig env (some cfg) with
  | .error e => (some e, [.buildClientCfg])
  | .ok _ =>
    match env.newForConfig with
    | .error e => (some (.libErr e), [.buildClientCfg])
    | .ok _ =>
      match env.newLock with
      | .error e => (some (.libErr e), [.buildClientCfg, .newClient])
      | .ok _ =>
        (none, [.buildClientCfg, .newClient, .newLock,
                .runElection (electionConfigOf cfg)])

/-- One iteration of the `select` in `runUntilError`: either the shared
context's `Done` channel fires first, or the session goroutine delivers its
result (with the library-call outcomes that session saw). -/
inductive LoopObs where
  | ctxDone
  | sessionDone (env : SessionEnv)

/-- Result of the supervisor loop: `returned err` when the Go function
returned (with `err` the `error` value, `none` for `nil`), `pending` when the
supplied observations ran out with the loop still running. -/
inductive RunOutcome where
  | pending
  | returned (err : Option GoError)
  deriving Repr, DecidableEq

/-- Function `runUntilError` from `elector.go`. Each loop iteration spawns `run` and
selects between `node.ctx.Done()` and the session's error channel:
on `Done` it returns `node.ctx.Err()` (non-nil `context.Canceled`, since the
node's context comes from `context.WithCancel`); on a non-nil session error
it logs "terminating: run error" and returns that error; on a nil session
result it sleeps the one-second settle interval and re-runs. -/
def runUntilError (cfg : ElectorConfig) : List LoopObs → RunOutcome × List Event
  | [] => (.pending, [])
  | .ctxDone :: _ => (.returned (some .contextCanceled), [])
  | .sessionDone env :: rest =>
    match runSession env cfg with
    | (some e, evts) => (.returned (some e), evts)
    | (none, evts) =>
      let r := runUntilError cfg rest
      (r.1, evts ++ r.2)

/-- Method `Run` from `elector.go`: validate via `checkConfig` and return its error
directly on failure (before any client/store activity); otherwise drive
`runUntilError` with the validated (mutated) config and return its error, or
`nil` when it returns `nil`. -/
def Run (osEnv : OSEnv) (config : Option ElectorConfig) (obs : List LoopObs) :
    RunOutcome × List Event :=
  match checkConfig osEnv config with
  | .error e => (.returned (some e), [])
  | .ok cfg => runUntilError cfg obs

/-- The in-memory fields of `ElectorNode` that the status surface reads. -/
structure ElectorNode where
  config : Option ElectorConfig
  currentLeader : String
  deriving Repr, DecidableEq

/-- Method `IsLeader` from `elector.go`: false on a nil config, otherwise whether
the node's ID equals the observed current leader. -/
def ElectorNode.IsLeader (node : ElectorNode) : Bool :=
  match node.config with
  | none => false
  | some cfg => cfg.ID == node.currentLeader

/-- The HTTP response `httpLeaderInfo` writes: status code, the
`Content-Type` header value list, and the JSON object's fields. -/
structure LeaderInfoResponse where
  status : Nat
  contentType : List String
  node : String
  leader : String
  is_leader : Bool
  timestamp : String
  deriving Repr, DecidableEq

/-- Handler `httpLeaderInfo` from `elector.go`. Marshals
`{node, leader, is_leader, timestamp}` (marshalling of string/bool fields
cannot fail), sets `Content-Type: application/json`, and writes HTTP 200.
The handler dereferences `node.config`, so it is only defined (`some`) for a
node holding a config; `now` is `time.Now().UTC().Format(time.RFC3339)`. -/
def httpLeaderInfo (node : ElectorNode) (now : String) :
    Option LeaderInfoResponse :=
  node.config.map fun cfg =>
    { status := 200
      contentType := ["application/json"]
      node := cfg.ID
      leader := node.currentLeader
      is_leader := node.IsLeader
      timestamp := now }

/-! Concrete instances used by witnesses and counterexamples. They follow the
example deployment (`-election=example-election -ttl=10s -namespace=default`,
node id `n1`). -/

/-- A well-formed elector config: in-cluster client, 10s TTL. -/
def cfgExample : ElectorConfig :=
  { Address := ""
    ID := "n1"
    KubeConfig := ""
    LockType := "leases"
    Name := "example-election"
    Namespace := "default"
    PodName := ""
    TTL := 10000000000 }

/-- Same config with the election name missing. -/
def cfgNoName : ElectorConfig := { cfgExample with Name := "" }

/-- Same config with no participant ID. -/
def cfgNoID : ElectorConfig := { cfgExample with ID := "" }

/-- Same config with `TTL = 0`, so the derived durations violate
`renewDeadline < leaseDuration` and `retryPeriod < renewDeadline`. -/
def cfgTTL0 : ElectorConfig := { cfgExample with TTL := 0 }

/-- An OS environment where `os.Hostname()` succeeds and the pod-name
environment variable is unset. -/
def osEnvOK : OSEnv := { hostname := .ok "host-1", podNameEnv := "" }

/-- A session environment in which every library call succeeds. -/
def sessionOK : SessionEnv :=
  { kubeconfigBuild := .ok ()
    inCluster := .ok ()
    newForConfig := .ok ()
    newLock := .ok () }

/-- A session environment where creating the lock object fails with a
store-level connectivity fault. -/
def sessionStoreFault : SessionEnv :=
  { sessionOK with newLock := .error "connection refused" }

/-- C1 (counterexample): the claim "a session ending with a non-nil error is
logged and triggers a restart after the settle interval, rather than
terminating; store-level faults are never surfaced as a terminal failure" is
false on the code: with a first session that fails creating the lock
("connection refused") and a second session available, `runUntilError`
returns that store fault as its result and never starts the second session
(the trace stops at the failed session's steps). -/
theorem runUntilError_terminates_on_session_error_cex :
    runUntilError cfgExample
        [.sessionDone sessionStoreFault, .sessionDone sessionOK] =
      (.returned (some (.libErr "connection refused")),
        [.buildClientCfg, .newClient]) ∧
    RunOutcome.returned (some (GoError.libErr "connection refused")) ≠
      RunOutcome.pending := by
  decide

/-- C1 (amended): a session that ends with a non-nil error causes
`runUntilError` to return that error, terminating the supervision loop (the
error is surfaced to `Run`'s caller); only a session that returns a nil
error triggers a restart, after the settle interval, continuing with the
remaining observations. -/
theorem runUntilError_error_terminates_nil_restarts
    (cfg : ElectorConfig) (env : SessionEnv) (rest : List LoopObs)
    (e : GoError) :
    ((runSession env cfg).1 = some e →
      (runUntilError cfg (.sessionDone env :: rest)).1 = .returned (some e)) ∧
    ((runSession env cfg).1 = none →
      (runUntilError cfg (.sessionDone env :: rest)).1 =
        (runUntilError cfg rest).1) := by
  rcases hs : runSession env cfg with ⟨err, evts⟩
  constructor
  · intro h
    simp only [runUntilError, hs]
    cases err with
    | none => simp at h
    | some e' => simp_all
  · intro h
    simp only [runUntilError, hs]
    cases err with
    | none => simp
    | some e' => simp at h

/-- C1 (witness): with the concrete store-fault session the loop returns the
fault; with the all-ok session the loop proceeds to the next observation. -/
theorem runUntilError_error_terminates_nil_restarts_witness :
    (runUntilError cfgExample [.sessionDone sessionStoreFault]).1 =
      .returned (some (.libErr "connection refused")) ∧
    (runUntilError cfgExample [.sessionDone sessionOK, .ctxDone]).1 =
      (runUntilError cfgExample [.ctxDone]).1 :=
  ⟨(runUntilError_error_terminates_nil_restarts cfgExample sessionStoreFault
      [] (.libErr "connection refused")).1 (by decide),
   (runUntilError_error_terminates_nil_restarts cfgExample sessionOK
      [.ctxDone] .contextCanceled).2 (by decide)⟩

/-- C2 (counterexample): the claim "when the shared context is cancelled,
`runUntilError` and `Run` return without an error" is false on the code: on
a valid config, cancellation makes `Run` return `node.ctx.Err()`, which is
the non-nil `context.Canceled`, not a clean nil return. -/
theorem run_cancellation_returns_error_cex :
    Run osEnvOK (some cfgExample) [.ctxDone] =
      (.returned (some .contextCanceled), []) ∧
    RunOutcome.returned (some GoError.contextCanceled) ≠
      RunOutcome.returned none := by
  decide

/-- C2 (amended): when the shared context is cancelled, `runUntilError`
returns `node.ctx.Err()` — the non-nil `context.Canceled` — and `Run`
propagates exactly that error to its caller, for every config that passes
validation. Cancellation is therefore observed as a non-nil error. -/
theorem run_cancellation_returns_contextCanceled
    (osEnv : OSEnv) (config : Option ElectorConfig) (obs : List LoopObs)
    (cfg' : ElectorConfig) (h : checkConfig osEnv config = .ok cfg') :
    Run osEnv config (.ctxDone :: obs) =
      (.returned (some .contextCanceled), []) := by
  simp only [Run, h, runUntilError]

/-- C2 (witness): cancellation observed with the concrete example config. -/
theorem run_cancellation_returns_contextCanceled_witness :
    Run osEnvOK (some cfgExample) [.ctxDone] =
      (.returned (some .contextCanceled), []) :=
  run_cancellation_returns_contextCanceled osEnvOK (some cfgExample) []
    { cfgExample with PodName := "host-1" } rfl

/-- C3: with an empty election name, `Run` returns the missing-name
configuration error straight from `checkConfig`, the event trace is empty —
so in particular no Kubernetes client is built and no lock object is
created — before any store/network call is attempted. -/
theorem run_missing_name_fails_before_store
    (osEnv : OSEnv) (cfg : ElectorConfig) (obs : List LoopObs)
    (h : cfg.Name = "") :
    Run osEnv (some cfg) obs = (.returned (some .missingName), []) ∧
    checkConfig osEnv (some cfg) = .error .missingName ∧
    Event.newClient ∉ (Run osEnv (some cfg) obs).2 ∧
    Event.newLock ∉ (Run osEnv (some cfg) obs).2 := by
  have hc : checkConfig osEnv (some cfg) = .error .missingName := by
    simp [checkConfig, h]
  refine ⟨?_, hc, ?_, ?_⟩ <;> simp [Run, hc]

/-- C3 (witness): the concrete nameless config fails cleanly. -/
theorem run_missing_name_fails_before_store_witness :
    Run osEnvOK (some cfgNoName) [.sessionDone sessionOK] =
      (.returned (some .missingName), []) ∧
    checkConfig osEnvOK (some cfgNoName) = .error .missingName ∧
    Event.newClient ∉ (Run osEnvOK (some cfgNoName) [.sessionDone sessionOK]).2 ∧
    Event.newLock ∉ (Run osEnvOK (some cfgNoName) [.sessionDone sessionOK]).2 :=
  run_missing_name_fails_before_store osEnvOK cfgNoName
    [.sessionDone sessionOK] rfl

/-- C4: whenever a session reaches the election start (the `runElection`
event appears in its trace), the election config handed to
`leaderelection.RunOrDie` has `LeaseDuration = TTL`,
`RenewDeadline = TTL / 3` and `RetryPeriod = TTL / 6`, with `/` Go's
truncating integer division on `time.Duration`. -/
theorem runElection_durations_ttl_thirds_sixths
    (env : SessionEnv) (cfg : ElectorConfig) (lec : LeaderElectionConfig)
    (h : Event.runElection lec ∈ (runSession env cfg).2) :
    lec.LeaseDuration = cfg.TTL ∧
    lec.RenewDeadline = Int.tdiv cfg.TTL 3 ∧
    lec.RetryPeriod = Int.tdiv cfg.TTL 6 := by
  unfold runSession at h
  rcases hb : buildClientConfig env (some cfg) with eb | ub <;> rw [hb] at h
  · simp at h
  · rcases hf : env.newForConfig with ef | uf <;> rw [hf] at h
    · simp at h
    · rcases hl : env.newLock with el | ul <;> rw [hl] at h
      · simp at h
      · simp only [electionConfigOf] at h
        simp at h
        subst h
        exact ⟨rfl, rfl, rfl⟩

/-- C4 (witness): for the 10-second TTL of the example config the durations
are 10s, 3.333…s and 1.666…s in nanoseconds. -/
theorem runElection_durations_ttl_thirds_sixths_witness :
    ({ Name := "default/example-election-n1"
       ReleaseOnCancel := true
       LeaseDuration := 10000000000
       RenewDeadline := 3333333333
       RetryPeriod := 1666666666 } : LeaderElectionConfig).LeaseDuration =
        cfgExample.TTL ∧
    ({ Name := "default/example-election-n1"
       ReleaseOnCancel := true
       LeaseDuration := 10000000000
       RenewDeadline := 3333333333
       RetryPeriod := 1666666666 } : LeaderElectionConfig).RenewDeadline =
        Int.tdiv cfgExample.TTL 3 ∧
    ({ Name := "default/example-election-n1"
       ReleaseOnCancel := true
       LeaseDuration := 10000000000
       RenewDeadline := 3333333333
       RetryPeriod := 1666666666 } : LeaderElectionConfig).RetryPeriod =
        Int.tdiv cfgExample.TTL 6 :=
  runElection_durations_ttl_thirds_sixths sessionOK cfgExample
    { Name := "default/example-election-n1"
      ReleaseOnCancel := true
      LeaseDuration := 10000000000
      RenewDeadline := 3333333333
      RetryPeriod := 1666666666 } (by decide)

/-- C5: for any node holding a config, the status endpoint answers HTTP 200
with `Content-Type: application/json` and body fields
`{node = self ID, leader = observed leader, is_leader = IsLeader()}` plus the
formatted timestamp; in particular for identity "n1" with no observed leader
the fields are `node = "n1"`, `leader = ""`, `is_leader = false`. -/
theorem httpLeaderInfo_status_ok_fields
    (node : ElectorNode) (cfg : ElectorConfig) (now : String)
    (h : node.config = some cfg) :
    httpLeaderInfo node now = some
      { status := 200
        contentType := ["application/json"]
        node := cfg.ID
        leader := node.currentLeader
        is_leader := node.IsLeader
        timestamp := now } ∧
    (cfg.ID = "n1" → node.currentLeader = "" →
      httpLeaderInfo node now = some
        { status := 200
          contentType := ["application/json"]
          node := "n1"
          leader := ""
          is_leader := false
          timestamp := now }) := by
  constructor
  · simp [httpLeaderInfo, h]
  · intro h1 h2
    simp [httpLeaderInfo, ElectorNode.IsLeader, h, h1, h2]

/-- C5 (witness): the concrete "n1" node with empty observed leader. -/
theorem httpLeaderInfo_status_ok_fields_witness :
    httpLeaderInfo { config := some cfgExample, currentLeader := "" }
        "2026-10-11T00:00:00Z" = some
      { status := 200
        contentType := ["application/json"]
        node := "n1"
        leader := ""
        is_leader := false
        timestamp := "2026-10-11T00:00:00Z" } :=
  (httpLeaderInfo_status_ok_fields
    { config := some cfgExample, currentLeader := "" } cfgExample
    "2026-10-11T00:00:00Z" rfl).2 rfl rfl

/-- C6 (counterexample): the claim "a configuration with invalid durations
(e.g. TTL = 0) fails at startup with a fatal ConfigError and the process
does not proceed to run the election" is false on the code: `checkConfig`
accepts `TTL = 0` (it validates no durations), and `Run` proceeds through
client construction and lock creation to start the election with
`LeaseDuration = RenewDeadline = RetryPeriod = 0`. -/
theorem checkConfig_accepts_zero_ttl_cex :
    checkConfig osEnvOK (some cfgTTL0) =
      .ok { cfgTTL0 with PodName := "host-1" } ∧
    Run osEnvOK (some cfgTTL0) [.sessionDone sessionOK] =
      (.pending,
        [.buildClientCfg, .newClient, .newLock,
         .runElection
           { Name := "default/example-election-n1"
             ReleaseOnCancel := true
             LeaseDuration := 0
             RenewDeadline := 0
             RetryPeriod := 0 }]) := by
  exact ⟨rfl, rfl⟩

/-- C6 (amended): the repository performs no duration validation. Any config
with a non-empty election name passes `checkConfig` with its TTL unchanged
(whenever the hostname lookup succeeds), and `Run` proceeds past validation
to build the client, create the lock, and start the election; invalid
durations are rejected only inside the external leader-election library,
not by this code base's startup checks. -/
theorem checkConfig_no_duration_validation
    (osEnv : OSEnv) (cfg : ElectorConfig) (hx : String)
    (hname : cfg.Name ≠ "") (hhost : osEnv.hostname = .ok hx) :
    ∃ cfg', checkConfig osEnv (some cfg) = .ok cfg' ∧
      cfg'.TTL = cfg.TTL ∧
      (Run osEnv (some cfg) [.sessionDone sessionOK]).2 =
        [.buildClientCfg, .newClient, .newLock,
         .runElection (electionConfigOf cfg')] := by
  have hbc : ∀ c : ElectorConfig, buildClientConfig sessionOK (some c) = .ok () := by
    intro c
    simp only [buildClientConfig, sessionOK]
    split <;> rfl
  have hsess : ∀ c : ElectorConfig, runSession sessionOK c =
      (none, [.buildClientCfg, .newClient, .newLock,
              .runElection (electionConfigOf c)]) := by
    intro c
    simp only [runSession]
    rw [hbc c]
    rfl
  by_cases hp : osEnv.podNameEnv = "" <;> by_cases hi : cfg.ID = ""
  · have hc : checkConfig osEnv (some cfg) =
        .ok { cfg with PodName := hx, ID := hx } := by
      simp [checkConfig, hname, hhost, hp, hi]
    exact ⟨_, hc, rfl, by simp [Run, hc, runUntilError, hsess]⟩
  · have hc : checkConfig osEnv (some cfg) =
        .ok { cfg with PodName := hx } := by
      simp [checkConfig, hname, hhost, hp, hi]
    exact ⟨_, hc, rfl, by simp [Run, hc, runUntilError, hsess]⟩
  · have hc : checkConfig osEnv (some cfg) =
        .ok { cfg with PodName := osEnv.podNameEnv, ID := hx } := by
      simp [checkConfig, hname, hhost, hp, hi]
    exact ⟨_, hc, rfl, by simp [Run, hc, runUntilError, hsess]⟩
  · have hc : checkConfig osEnv (some cfg) =
        .ok { cfg with PodName := osEnv.podNameEnv } := by
      simp [checkConfig, hname, hhost, hp, hi]
    exact ⟨_, hc, rfl, by simp [Run, hc, runUntilError, hsess]⟩

/-- C6 (witness): the zero-TTL config passes validation and reaches the
election start. -/
theorem checkConfig_no_duration_validation_witness :
    ∃ cfg', checkConfig osEnvOK (some cfgTTL0) = .ok cfg' ∧
      cfg'.TTL = cfgTTL0.TTL ∧
      (Run osEnvOK (some cfgTTL0) [.sessionDone sessionOK]).2 =
        [.buildClientCfg, .newClient, .newLock,
         .runElection (electionConfigOf cfg')] :=
  checkConfig_no_duration_validation osEnvOK cfgTTL0 "host-1"
    (by decide) rfl

/-- C7: a config with an empty ID and a non-empty election name passes
`checkConfig`, which sets the node's ID to the hostname reported by the OS;
hence the participant identity after validation is non-empty whenever the
hostname is. -/
theorem checkConfig_defaults_id_to_hostname
    (osEnv : OSEnv) (cfg : ElectorConfig) (hx : String)
    (hid : cfg.ID = "") (hname : cfg.Name ≠ "")
    (hhost : osEnv.hostname = .ok hx) :
    ∃ cfg', checkConfig osEnv (some cfg) = .ok cfg' ∧
      cfg'.ID = hx ∧ (hx ≠ "" → cfg'.ID ≠ "") := by
  by_cases hp : osEnv.podNameEnv = ""
  · refine ⟨{ cfg with PodName := hx, ID := hx }, ?_, rfl, fun hne => hne⟩
    simp [checkConfig, hname, hhost, hp, hid]
  · refine ⟨{ cfg with PodName := osEnv.podNameEnv, ID := hx }, ?_, rfl, fun hne => hne⟩
    simp [checkConfig, hname, hhost, hp, hid]

/-- C7 (witness): the concrete ID-less config gets the hostname "host-1". -/
theorem checkConfig_defaults_id_to_hostname_witness :
    ∃ cfg', checkConfig osEnvOK (some cfgNoID) = .ok cfg' ∧
      cfg'.ID = "host-1" ∧ ("host-1" ≠ "" → cfg'.ID ≠ "") :=
  checkConfig_defaults_id_to_hostname osEnvOK cfgNoID "host-1"
    rfl (by decide) rfl

end KElector
